import Mathlib

/-!
Shallow embedding of the bsky-archiver repository.

The repository contains two near-duplicate revisions of the archive pipeline:
`archive` in src/main.rs (driven by the GUI in the same file) and `archive` in
src/lib/mod.rs (driven by src/lib/post_information.rs, over data types imported
from the `bsky_parser` crate whose definitions are not under src/).  Both are
embedded below, as `mainArchive` and `libArchive`.

Network and filesystem effects are modelled by explicit oracles (`Net`,
`LibNet`) and an explicit filesystem state (`Fs`); each run returns its
outcome, the final filesystem state, and the list of network requests issued.
-/

namespace BskyArchiver

/-! ## URL extraction

Both revisions build the same regular expression
`profile/([a-zA-Z0-9._-]+)/post/([A-Za-z0-9._:~-]+)` (src/main.rs line 140,
src/lib/post_information.rs line 63) and run an unanchored leftmost search
over the URL.  The pattern is a fixed literal, so `Regex::new` cannot fail;
the search is modelled directly.  Because neither character class contains
`/`, a greedy capture group can never give back characters (the character
after a shortened run would have to be `/` and simultaneously a member of the
class), so each match attempt deterministically takes the maximal run. -/

/-- The character class `[a-zA-Z0-9._-]` of the handle capture group. -/
def isHandleChar (c : Char) : Bool :=
  ('a' ≤ c && c ≤ 'z') || ('A' ≤ c && c ≤ 'Z') || ('0' ≤ c && c ≤ '9') ||
    c == '.' || c == '_' || c == '-'

/-- The character class `[A-Za-z0-9._:~-]` of the record-key capture group. -/
def isRkeyChar (c : Char) : Bool :=
  isHandleChar c || c == ':' || c == '~'

/-- The literal `profile/` that precedes the handle capture group. -/
def profileLit : List Char := ['p', 'r', 'o', 'f', 'i', 'l', 'e', '/']

/-- The literal `/post/` between the two capture groups. -/
def postLit : List Char := ['/', 'p', 'o', 's', 't', '/']

/-- Maximal run of characters satisfying `p` at the head of the list, together
with the remainder of the list. -/
def takeRun (p : Char → Bool) : List Char → List Char × List Char
  | [] => ([], [])
  | c :: cs =>
    if p c then
      let r := takeRun p cs
      (c :: r.1, r.2)
    else ([], c :: cs)

/-- One attempt to match the post-URL pattern anchored at the head of `s`:
literal `profile/`, a nonempty maximal handle run, literal `/post/`, a
nonempty maximal record-key run.  Returns the two capture groups. -/
def tryMatchAt (s : List Char) : Option (List Char × List Char) :=
  if profileLit.isPrefixOf s then
    let s1 := s.drop profileLit.length
    let hr := takeRun isHandleChar s1
    if hr.1.isEmpty then none
    else if postLit.isPrefixOf hr.2 then
      let s3 := hr.2.drop postLit.length
      let kr := takeRun isRkeyChar s3
      if kr.1.isEmpty then none else some (hr.1, kr.1)
    else none
  else none

/-- Unanchored leftmost search: try a match at every position, left to right,
returning the captures of the first position where the attempt succeeds.
This models `Regex::captures` for the fixed post-URL pattern. -/
def regexCaptures : List Char → Option (List Char × List Char)
  | [] => none
  | c :: cs =>
    match tryMatchAt (c :: cs) with
    | some r => some r
    | none => regexCaptures cs

/-! ## Data model (src/main.rs lines 271–497)

Integer widths (`u16`, `u64`) are modelled as `Nat`; none of the archive logic
performs arithmetic on them.  The source field `aspect_ratio` (struct
`AspectRatio`) is carried here under the name `aspect_dims` / `AspectDims`. -/

structure AspectDims where
  height : Nat
  width : Nat
deriving DecidableEq

structure Feature where
  type_of : Option String
  uri : Option String
deriving DecidableEq

structure Index where
  byte_end : Nat
  byte_start : Nat
deriving DecidableEq

structure Facet where
  features : List Feature
  index : Index
deriving DecidableEq

/-- Struct `ImageRef` (src/main.rs lines 394–399): the serde-renamed field
`$link` is called `resource_cid`. -/
structure ImageRef where
  resource_cid : String
deriving DecidableEq

/-- Struct `MediaBlobData` (src/main.rs lines 401–410): the serde-renamed field
`ref` is called `referer`. -/
structure MediaBlobData where
  type_of : Option String
  referer : Option ImageRef
  mime_type : String
  size : Nat
deriving DecidableEq

/-- Struct `RecordEmbedMedia` (src/main.rs lines 412–418). -/
structure RecordEmbedMedia where
  alt : Option String
  aspect_dims : Option AspectDims
  image : Option MediaBlobData
deriving DecidableEq

/-- Struct `RecordEmbed` (src/main.rs lines 420–430): an ordered image gallery and an
optional sibling video. -/
structure RecordEmbed where
  type_of : Option String
  images : List RecordEmbedMedia
  alt : Option String
  aspect_dims : Option AspectDims
  video : Option MediaBlobData
deriving DecidableEq

/-- Struct `Record` (src/main.rs lines 432–444). -/
structure Record where
  type_of : Option String
  created_at : String
  embed : Option RecordEmbed
  facets : List Facet
  langs : List String
  text : String
deriving DecidableEq

/-- Struct `EmbedMediaData` (src/main.rs lines 373–383), view-layer media. -/
structure EmbedMediaData where
  cid : Option String
  playlist : Option String
  thumbnail : Option String
  thumb : Option String
  fullsize : Option String
  alt : Option String
  aspect_dims : Option AspectDims
deriving DecidableEq

/-- Struct `Embed` (src/main.rs lines 385–392), the view-layer embed; it is never
consulted by the downloader. -/
structure Embed where
  type_of : Option String
  images : List EmbedMediaData
deriving DecidableEq

structure PostViewer where
  thread_muted : Bool
  embedding_disabled : Bool
deriving DecidableEq

/-- Struct `PostData` (src/main.rs lines 446–459). -/
structure PostData where
  record : Option Record
  embed : Option Embed
  reply_count : Nat
  repost_count : Nat
  like_count : Nat
  quote_count : Nat
  indexed_at : String
  viewer : PostViewer
  labels : List String
deriving DecidableEq

structure ThreadContext where
  root_author_like : Option String
deriving DecidableEq

/-- Struct `Thread` (src/main.rs lines 469–478). -/
structure Thread where
  type_of : Option String
  post : Option PostData
  thread_context : Option ThreadContext
deriving DecidableEq

/-- Struct `ThreadData` (src/main.rs lines 487–491). -/
structure ThreadData where
  thread : Thread
deriving DecidableEq

/-- Struct `Did` (src/main.rs lines 67–71). -/
structure Did where
  did : String
deriving DecidableEq

/-- Struct `BskyCreds` (src/main.rs lines 73–84). -/
structure BskyCreds where
  did : String
  handle : String
  email : String
  email_confirmed : Bool
  email_auth_factor : Bool
  access_jwt : String
  refresh_jwt : String
  active : Bool
deriving DecidableEq

/-! ## Effect model -/

/-- Result of an HTTP call whose body is then JSON-decoded: the three failure
points are `send()`, `bytes()` and `serde_json::from_slice`. -/
inductive StepResult (α : Type) where
  | sendErr
  | bytesErr
  | parseErr
  | ok (val : α)
deriving DecidableEq

/-- Result of a raw blob fetch (no JSON decoding; body is raw binary). -/
inductive FetchResult where
  | sendErr
  | bytesErr
  | ok (bytes : List Nat)
deriving DecidableEq

/-- Network oracle for the src/main.rs revision: the response of each remote
endpoint the run may contact.  `clientBuildOk` models `ClientBuilder::build`.
`mirror` is the response of the web-archive save endpoint; `archive` discards
that response without looking at it, so the model never reads this field. -/
structure Net where
  clientBuildOk : Bool
  createSession : StepResult BskyCreds
  resolveHandle : String → StepResult Did
  getThread : String → String → StepResult (List Nat × ThreadData)
  getBlob : String → String → FetchResult
  mirror : FetchResult

/-- The slice of the local filesystem an archive run can touch: whether
`./posts` exists, which subdirectories of `./posts` exist, and the files
(keyed by full path) with their contents. -/
structure Fs where
  postsRoot : Bool
  dirs : List String
  files : List (String × List Nat)
deriving DecidableEq

/-- Write a file: replace the contents if the path exists, append otherwise. -/
def putFile : List (String × List Nat) → String → List Nat → List (String × List Nat)
  | [], n, b => [(n, b)]
  | (m, c) :: rest, n, b =>
    if m = n then (n, b) :: rest else (m, c) :: putFile rest n b

/-- Path `format!("./posts/{}/{}", rkey, name)`. -/
def postPath (rkey name : String) : String :=
  "./posts/" ++ rkey ++ "/" ++ name

/-- A network request issued by a run, in issue order. -/
inductive Req where
  | createSession
  | resolveHandle (handle : String)
  | getThread (did rkey : String)
  | getBlob (did cid : String)
  | mirror (url : String)
deriving DecidableEq

/-- The variants of `Errors` (src/main.rs lines 499–509) reachable from
`archive`. -/
inductive MainError where
  | reqwestSendError
  | reqwestBytesError
  | deserializeError
  | fileCreateError
deriving DecidableEq

/-- The variants of `Errors` (src/lib/mod.rs lines 51–63) reachable from
`archive`; `reqwestErr` covers both send and bytes failures (both convert to
`Errors::Reqwest`), `ioErr` is `Errors::Io`. -/
inductive LibError where
  | reqwestErr
  | deserializeErr
  | ioErr
deriving DecidableEq

/-- How a run ends: a returned `Ok(())`, a returned typed error, a
`process::exit(code)`, or a `panic!`. -/
inductive Outcome (ε : Type) where
  | ok
  | error (e : ε)
  | exited (code : Nat)
  | panicked (msg : String)
deriving DecidableEq

/-- Mid-run state: the filesystem and the requests issued so far. -/
structure MState where
  fs : Fs
  reqs : List Req
deriving DecidableEq

structure MainResult where
  outcome : Outcome MainError
  fs : Fs
  reqs : List Req
deriving DecidableEq

structure LibResult where
  outcome : Outcome LibError
  fs : Fs
  reqs : List Req
deriving DecidableEq

/-! ## The src/main.rs revision of `archive` (lines 139–269) -/

/-- URL `format!("https://web.archive.org/save/{}", url)` (src/main.rs line 155). -/
def mirrorUrl (url : String) : String :=
  "https://web.archive.org/save/" ++ url

/-- Statement `let _ = fs::create_dir(format!("./posts/{}", rkey));` (src/main.rs
line 202): creating the per-post directory succeeds only when `./posts`
exists and the directory is absent; any error is silently discarded. -/
def createDirIgnored (fs : Fs) (rkey : String) : Fs :=
  if fs.postsRoot && !(fs.dirs.contains rkey) then
    { fs with dirs := rkey :: fs.dirs }
  else fs

/-- Call `File::create(path)` under `./posts/<rkey>/`: create-or-truncate; fails
exactly when the per-post directory is absent. -/
def fileCreate (fs : Fs) (rkey name : String) (bytes : List Nat) : Option Fs :=
  if fs.dirs.contains rkey then
    some { fs with files := putFile fs.files (postPath rkey name) bytes }
  else none

/-- The image-gallery loop of src/main.rs `archive` (lines 209–232): in array
order, a missing `image` or missing `ref` breaks out of the whole loop;
otherwise the blob is fetched (blob endpoint, no auth), the file
`<cid>.png` is created/truncated, and the write result is discarded. -/
def mainImageLoop (gb : String → String → FetchResult) (did rkey : String) :
    List RecordEmbedMedia → MState → MState × Option MainError
  | [], st => (st, none)
  | img :: rest, st =>
    match img.image with
    | none => (st, none)
    | some image =>
      match image.referer with
      | none => (st, none)
      | some referer =>
        let st1 : MState :=
          { st with reqs := st.reqs ++ [Req.getBlob did referer.resource_cid] }
        match gb did referer.resource_cid with
        | .sendErr => (st1, some .reqwestSendError)
        | .bytesErr => (st1, some .reqwestBytesError)
        | .ok blob =>
          match fileCreate st1.fs rkey (referer.resource_cid ++ ".png") blob with
          | none => (st1, some .fileCreateError)
          | some fs2 => mainImageLoop gb did rkey rest { st1 with fs := fs2 }

/-- The video branch of src/main.rs `archive` (lines 234–255): a missing video
reference is `exit(71)`; a `send` failure propagates as an error; a `bytes`
failure panics; otherwise the blob is written to `<cid>.mp4` — the extension
is hard-coded in this revision (line 252). -/
def mainVideoStep (gb : String → String → FetchResult) (did rkey : String)
    (video : MediaBlobData) (st : MState) : MState × Outcome MainError :=
  match video.referer with
  | none => (st, .exited 71)
  | some referer =>
    let st1 : MState :=
      { st with reqs := st.reqs ++ [Req.getBlob did referer.resource_cid] }
    match gb did referer.resource_cid with
    | .sendErr => (st1, .error .reqwestSendError)
    | .bytesErr => (st1, .panicked "Unable to get response bytes")
    | .ok blob =>
      match fileCreate st1.fs rkey (referer.resource_cid ++ ".mp4") blob with
      | none => (st1, .error .fileCreateError)
      | some fs2 => ({ st1 with fs := fs2 }, .ok)

/-- The tail of src/main.rs `archive` (lines 261–268):
`let _ = client.get(url).send().await;` — the save-endpoint GET is issued and
its result, error or not, is discarded; the run then returns `Ok(())`. -/
def mainFinish (url : String) (st : MState) : MainResult :=
  ⟨.ok, st.fs, st.reqs ++ [Req.mirror (mirrorUrl url)]⟩

/-- Function `archive` from src/main.rs (lines 139–269). -/
def mainArchive (net : Net) (fs : Fs) (url _username _password : String) : MainResult :=
  match regexCaptures url.data with
  | none => ⟨.exited 69, fs, []⟩
  | some capt =>
    let handle := String.mk capt.1
    let rkey := String.mk capt.2
    if net.clientBuildOk then
      match net.createSession with
      | .sendErr => ⟨.error .reqwestSendError, fs, [Req.createSession]⟩
      | .bytesErr => ⟨.error .reqwestBytesError, fs, [Req.createSession]⟩
      | .parseErr => ⟨.error .deserializeError, fs, [Req.createSession]⟩
      | .ok _creds =>
        let reqs1 := [Req.createSession, Req.resolveHandle handle]
        match net.resolveHandle handle with
        | .sendErr => ⟨.error .reqwestSendError, fs, reqs1⟩
        | .bytesErr => ⟨.error .reqwestBytesError, fs, reqs1⟩
        | .parseErr => ⟨.error .deserializeError, fs, reqs1⟩
        | .ok did =>
          let reqs2 := reqs1 ++ [Req.getThread did.did rkey]
          match net.getThread did.did rkey with
          | .sendErr => ⟨.error .reqwestSendError, fs, reqs2⟩
          | .bytesErr => ⟨.error .reqwestBytesError, fs, reqs2⟩
          | .parseErr => ⟨.error .deserializeError, fs, reqs2⟩
          | .ok tr =>
            match tr.2.thread.post with
            | none => mainFinish url ⟨fs, reqs2⟩
            | some post =>
              match post.record with
              | none => mainFinish url ⟨fs, reqs2⟩
              | some record =>
                let fs1 := createDirIgnored fs rkey
                match fileCreate fs1 rkey "raw.json" tr.1 with
                | none => ⟨.error .fileCreateError, fs1, reqs2⟩
                | some fs2 =>
                  match record.embed with
                  | none => mainFinish url ⟨fs2, reqs2⟩
                  | some media =>
                    let lr := mainImageLoop net.getBlob did.did rkey media.images ⟨fs2, reqs2⟩
                    match lr.2 with
                    | some e => ⟨.error e, lr.1.fs, lr.1.reqs⟩
                    | none =>
                      match media.video with
                      | none => mainFinish url lr.1
                      | some video =>
                        let vr := mainVideoStep net.getBlob did.did rkey video lr.1
                        match vr.2 with
                        | .ok => mainFinish url vr.1
                        | out => ⟨out, vr.1.fs, vr.1.reqs⟩
    else ⟨.error .reqwestSendError, fs, []⟩

/-- The content identifier reached by the two nested reference matches of the
image loop, when both are present. -/
def refCid (img : RecordEmbedMedia) : Option String :=
  match img.image with
  | none => none
  | some image =>
    match image.referer with
    | none => none
    | some referer => some referer.resource_cid

/-! ## The src/lib/mod.rs revision of `archive` (lines 142–273)

This revision deserialises into `ThreadData` imported from the `bsky_parser`
crate, whose definitions are not under src/.  The shapes below are therefore
modelled from the spec (§3) and from how src/lib/mod.rs dereferences them:
`image.image.referer.cid` and `video.referer.cid` are plain field accesses, so
in these types the media reference is not optional. -/

/-- Modelled from the spec: the `bsky_parser` blob pointer used by
src/lib/mod.rs as `referer.cid`; spec §3 `MediaReference.contentId`. -/
structure LibImageRef where
  cid : String
deriving DecidableEq

/-- Modelled from the spec: the `bsky_parser` blob descriptor used by
src/lib/mod.rs (`mime_type`, `referer`); spec §3 `MediaReference`
`{contentId, mimeType, sizeBytes}`. -/
structure LibMediaBlobData where
  referer : LibImageRef
  mime_type : String
  size : Nat
deriving DecidableEq

/-- Modelled from the spec: one gallery entry as used by src/lib/mod.rs
(`image.image`). -/
structure LibRecordEmbedMedia where
  image : LibMediaBlobData
deriving DecidableEq

/-- Modelled from the spec: the record-layer embed as used by src/lib/mod.rs
(`media.images`, `media.video`); spec §3 `RecordEmbed`. -/
structure LibRecordEmbed where
  images : List LibRecordEmbedMedia
  video : Option LibMediaBlobData
deriving DecidableEq

/-- Modelled from the spec: the authored record (`record.embed`). -/
structure LibRecord where
  embed : Option LibRecordEmbed
deriving DecidableEq

/-- Modelled from the spec: the post view (`post.record`). -/
structure LibPostData where
  record : Option LibRecord
deriving DecidableEq

/-- Modelled from the spec: the thread (`thread.post`). -/
structure LibThread where
  post : Option LibPostData
deriving DecidableEq

/-- Modelled from the spec: the root response (`post_data.thread`). -/
structure LibThreadData where
  thread : LibThread
deriving DecidableEq

/-- Network oracle for the src/lib/mod.rs revision.  This revision never
contacts the web-archive save endpoint (the call at line 269 is commented
out), so no mirror field exists. -/
structure LibNet where
  clientBuildOk : Bool
  createSession : StepResult BskyCreds
  resolveHandle : String → StepResult Did
  getThread : String → String → StepResult (List Nat × LibThreadData)
  getBlob : String → String → FetchResult

/-- The `MediaType` enum (src/lib/mod.rs lines 18–25). -/
inductive MediaType where
  | mp4
  | mov
  | webm
  | mpeg
  | invalid
deriving DecidableEq

/-- The `From` conversion of a declared MIME string into a `MediaType`
(src/lib/mod.rs lines 27–37): the four literal strings are recognised,
everything else is `Invalid`. -/
def MediaType.fromMime (value : String) : MediaType :=
  if value = "video/mp4" then .mp4
  else if value = "video/mov" then .mov
  else if value = "video/webm" then .webm
  else if value = "video/mpeg" then .mpeg
  else .invalid

/-- The `Into` conversion of a `MediaType` into the extension token used in
the output filename (src/lib/mod.rs lines 39–49). -/
def MediaType.toExt : MediaType → String
  | .mp4 => "mp4"
  | .mov => "mov"
  | .webm => "webm"
  | .mpeg => "mpeg"
  | .invalid => "Invalid media type"

/-- Call `fs::create_dir("./posts")?` guarded by `if !post_info.posts_dir_exists`
(src/lib/mod.rs lines 205–207); the flag was captured by the GUI before the
run.  `create_dir` fails if `./posts` already exists. -/
def libCreatePostsRoot (fs : Fs) (postsDirExists : Bool) : Option Fs :=
  if postsDirExists then some fs
  else if fs.postsRoot then none
  else some { fs with postsRoot := true }

/-- Call `fs::create_dir(format!("./posts/{}", rkey))?` (src/lib/mod.rs line 208):
exclusive creation — fails when the directory already exists (or the parent
`./posts` is missing). -/
def libCreatePostDir (fs : Fs) (rkey : String) : Option Fs :=
  if fs.postsRoot && !(fs.dirs.contains rkey) then
    some { fs with dirs := rkey :: fs.dirs }
  else none

/-- Call `File::create_new(path)?` (src/lib/mod.rs line 211): create-new — fails
when the file already exists (or the directory is missing). -/
def fileCreateNew (fs : Fs) (rkey name : String) (bytes : List Nat) : Option Fs :=
  if fs.dirs.contains rkey && (fs.files.lookup (postPath rkey name)).isNone then
    some { fs with files := putFile fs.files (postPath rkey name) bytes }
  else none

/-- The image-gallery loop of src/lib/mod.rs `archive` (lines 218–232): in
this revision the reference is a plain field, so there is no skip policy;
send/bytes failures propagate as `Errors::Reqwest`, the blob is written to
`<cid>.png` (create-or-truncate). -/
def libImageLoop (gb : String → String → FetchResult) (did rkey : String) :
    List LibRecordEmbedMedia → MState → MState × Option LibError
  | [], st => (st, none)
  | img :: rest, st =>
    let referer := img.image.referer
    let st1 : MState := { st with reqs := st.reqs ++ [Req.getBlob did referer.cid] }
    match gb did referer.cid with
    | .sendErr => (st1, some .reqwestErr)
    | .bytesErr => (st1, some .reqwestErr)
    | .ok blob =>
      match fileCreate st1.fs rkey (referer.cid ++ ".png") blob with
      | none => (st1, some .ioErr)
      | some fs2 => libImageLoop gb did rkey rest { st1 with fs := fs2 }

/-- The video branch of src/lib/mod.rs `archive` (lines 233–264): the MIME
type is classified through `MediaType` and the blob is written to
`<cid>.<extension>`; the blob fetch carries bearer authentication. -/
def libVideoStep (gb : String → String → FetchResult) (did rkey : String)
    (video : LibMediaBlobData) (st : MState) : MState × Option LibError :=
  let ext := (MediaType.fromMime video.mime_type).toExt
  let referer := video.referer
  let st1 : MState := { st with reqs := st.reqs ++ [Req.getBlob did referer.cid] }
  match gb did referer.cid with
  | .sendErr => (st1, some .reqwestErr)
  | .bytesErr => (st1, some .reqwestErr)
  | .ok blob =>
    match fileCreate st1.fs rkey (referer.cid ++ "." ++ ext) blob with
    | none => (st1, some .ioErr)
    | some fs2 => ({ st1 with fs := fs2 }, none)

/-- Function `archive` from src/lib/mod.rs (lines 142–273).  Note the final
web-archive call (line 269) is commented out in the source: the run prints
and returns without issuing the mirror request. -/
def libArchive (net : LibNet) (fs : Fs) (postsDirExists : Bool)
    (url _username _password : String) : LibResult :=
  match regexCaptures url.data with
  | none => ⟨.exited 100, fs, []⟩
  | some capt =>
    let handle := String.mk capt.1
    let rkey := String.mk capt.2
    if net.clientBuildOk then
      match net.createSession with
      | .sendErr => ⟨.error .reqwestErr, fs, [Req.createSession]⟩
      | .bytesErr => ⟨.error .reqwestErr, fs, [Req.createSession]⟩
      | .parseErr => ⟨.error .deserializeErr, fs, [Req.createSession]⟩
      | .ok _creds =>
        let reqs1 := [Req.createSession, Req.resolveHandle handle]
        match net.resolveHandle handle with
        | .sendErr => ⟨.error .reqwestErr, fs, reqs1⟩
        | .bytesErr => ⟨.error .reqwestErr, fs, reqs1⟩
        | .parseErr => ⟨.error .deserializeErr, fs, reqs1⟩
        | .ok did =>
          let reqs2 := reqs1 ++ [Req.getThread did.did rkey]
          match net.getThread did.did rkey with
          | .sendErr => ⟨.error .reqwestErr, fs, reqs2⟩
          | .bytesErr => ⟨.error .reqwestErr, fs, reqs2⟩
          | .parseErr => ⟨.error .deserializeErr, fs, reqs2⟩
          | .ok tr =>
            match tr.2.thread.post with
            | none => ⟨.ok, fs, reqs2⟩
            | some post =>
              match post.record with
              | none => ⟨.ok, fs, reqs2⟩
              | some record =>
                match libCreatePostsRoot fs postsDirExists with
                | none => ⟨.error .ioErr, fs, reqs2⟩
                | some fsA =>
                  match libCreatePostDir fsA rkey with
                  | none => ⟨.error .ioErr, fsA, reqs2⟩
                  | some fsB =>
                    match fileCreateNew fsB rkey "raw.json" tr.1 with
                    | none => ⟨.error .ioErr, fsB, reqs2⟩
                    | some fsC =>
                      match record.embed with
                      | none => ⟨.ok, fsC, reqs2⟩
                      | some media =>
                        let lr := libImageLoop net.getBlob did.did rkey media.images ⟨fsC, reqs2⟩
                        match lr.2 with
                        | some e => ⟨.error e, lr.1.fs, lr.1.reqs⟩
                        | none =>
                          match media.video with
                          | none => ⟨.ok, lr.1.fs, lr.1.reqs⟩
                          | some video =>
                            let vr := libVideoStep net.getBlob did.did rkey video lr.1
                            match vr.2 with
                            | some e => ⟨.error e, vr.1.fs, vr.1.reqs⟩
                            | none => ⟨.ok, vr.1.fs, vr.1.reqs⟩
    else ⟨.error .reqwestErr, fs, []⟩

/-! ## Shared concrete sample values (used by witnesses and counterexamples) -/

def wUrl : String := "https://bsky.app/profile/alice/post/3k1"

def wCreds : BskyCreds :=
  ⟨"did:plc:w", "alice", "a@b.c", true, false, "jwt", "rjwt", true⟩

def wDid : Did := ⟨"did:plc:w"⟩

def wFs : Fs := ⟨true, [], []⟩

def wPost (r : Option Record) : PostData :=
  ⟨r, none, 0, 0, 0, 0, "t", ⟨false, false⟩, []⟩

def wThread (r : Option Record) : ThreadData :=
  ⟨⟨none, some (wPost r), none⟩⟩

def wNet (t : StepResult (List Nat × ThreadData)) : Net :=
  { clientBuildOk := true
    createSession := .ok wCreds
    resolveHandle := fun _ => .ok wDid
    getThread := fun _ _ => t
    getBlob := fun _ _ => .ok [7]
    mirror := .sendErr }

def wLibThreadOf (r : Option LibRecord) : LibThreadData := ⟨⟨some ⟨r⟩⟩⟩

def wLibNet (t : StepResult (List Nat × LibThreadData)) : LibNet :=
  { clientBuildOk := true
    createSession := .ok wCreds
    resolveHandle := fun _ => .ok wDid
    getThread := fun _ _ => t
    getBlob := fun _ _ => .ok [7] }

/-! ## C3 — video extension classification -/

def wVideoX : MediaBlobData := ⟨none, some ⟨"vc"⟩, "video/x-custom", 5⟩

def wRecVidMain : Record :=
  ⟨none, "now", some ⟨none, [], none, none, some wVideoX⟩, [], [], "hi"⟩

def wNetVidMain : Net := wNet (.ok ([1], wThread (some wRecVidMain)))

def wLvid : LibMediaBlobData := ⟨⟨"vc"⟩, "video/x-custom", 5⟩

def wLibRecVid : LibRecord := ⟨some ⟨[], some wLvid⟩⟩

def wLibNetVid : LibNet := wLibNet (.ok ([1, 2], wLibThreadOf (some wLibRecVid)))

/-! ## C2 — exclusivity of the per-post directory -/

def wFsExisting : Fs := ⟨true, ["3k1"], [(postPath "3k1" "raw.json", [0])]⟩

def wRecPlain : Record := ⟨none, "now", none, [], [], "hi"⟩

def wNetPlain : Net := wNet (.ok ([9, 9], wThread (some wRecPlain)))

def wLibNetPlain : LibNet := wLibNet (.ok ([9, 9], wLibThreadOf (some ⟨none⟩)))

def wImg (cid : String) : RecordEmbedMedia :=
  ⟨none, none, some ⟨none, some ⟨cid⟩, "image/jpeg", 10⟩⟩

def wImgNoRef : RecordEmbedMedia := ⟨none, none, some ⟨none, none, "image/jpeg", 10⟩⟩

def wEmbedC1 : RecordEmbed := ⟨none, [wImg "c1", wImgNoRef, wImg "c3"], none, none, none⟩

def wRecC1 : Record := ⟨none, "now", some wEmbedC1, [], [], "hi"⟩

def wNetC1 : Net := wNet (.ok ([1, 2], wThread (some wRecC1)))

def wVidNoRef : MediaBlobData := ⟨none, none, "video/mp4", 5⟩

def wRecC4 : Record :=
  ⟨none, "now", some ⟨none, [], none, none, some wVidNoRef⟩, [], [], "hi"⟩

def wNetC4 : Net := wNet (.ok ([1], wThread (some wRecC4)))

/-! ## C9 — gallery images persisted as `<contentId>.png` unconditionally -/

/-- Rewrite every gallery image's declared MIME type; the loops must not
notice (the content type is never introspected). -/
def setImageMime (f : String → String) (img : RecordEmbedMedia) : RecordEmbedMedia :=
  { img with image := img.image.map fun ib => { ib with mime_type := f ib.mime_type } }

def wNetNoPost : Net := wNet (.ok ([5], (⟨⟨none, none, none⟩⟩ : ThreadData)))

def wLibNetNoPost : LibNet := wLibNet (.ok ([5], (⟨⟨none⟩⟩ : LibThreadData)))

def wBadUrl : String := "https://example.com/notapost"

/-! ## Shared helper lemmas -/

lemma string_mk_data (s : String) : String.mk s.data = s := rfl

/-- Pushing an element-wise satisfied run through `takeRun` up to the first
failing character. -/
lemma takeRun_append_stop (p : Char → Bool) (h : List Char) (c : Char) (t : List Char)
    (hh : ∀ x ∈ h, p x = true) (hc : p c = false) :
    takeRun p (h ++ c :: t) = (h, c :: t) := by
  induction h with
  | nil => simp [takeRun, hc]
  | cons a h ih =>
    have ha : p a = true := hh a (List.mem_cons_self a h)
    have ih2 := ih (fun x hx => hh x (List.mem_cons_of_mem a hx))
    simp [takeRun, ha, ih2]

/-- Function `takeRun` consumes a fully satisfying list. -/
lemma takeRun_all (p : Char → Bool) (k : List Char) (hk : ∀ x ∈ k, p x = true) :
    takeRun p k = (k, []) := by
  induction k with
  | nil => rfl
  | cons a k ih =>
    have ha : p a = true := hk a (List.mem_cons_self a k)
    have ih2 := ih (fun x hx => hk x (List.mem_cons_of_mem a hx))
    simp [takeRun, ha, ih2]

lemma string_append_dot (s t : String) : s ++ "." ++ t = s ++ ("." ++ t) :=
  String.append_assoc s "." t

/-! ## C10 — the MIME classifier -/

/-- C10: the video MIME classifier recognizes exactly the four literal strings
`video/mp4`, `video/mov`, `video/webm`, `video/mpeg`; every other MIME string,
including `video/quicktime` (the conventional MIME type for .mov files), maps
to the invalid variant, whose extension token is the literal space-containing
string `Invalid media type`; consequently in the src/lib/mod.rs revision the
output file of such a video is named `<contentId>.Invalid media type`. -/
theorem c10_mime_classifier_exact :
    (∀ s : String, MediaType.fromMime s = .mp4 ↔ s = "video/mp4") ∧
    (∀ s : String, MediaType.fromMime s = .mov ↔ s = "video/mov") ∧
    (∀ s : String, MediaType.fromMime s = .webm ↔ s = "video/webm") ∧
    (∀ s : String, MediaType.fromMime s = .mpeg ↔ s = "video/mpeg") ∧
    MediaType.fromMime "video/quicktime" = .invalid ∧
    MediaType.toExt .invalid = "Invalid media type" ∧
    (∀ (gb : String → String → FetchResult) (d rk : String)
        (video : LibMediaBlobData) (st : MState) (blob : List Nat),
      MediaType.fromMime video.mime_type = .invalid →
      gb d video.referer.cid = .ok blob →
      st.fs.dirs.contains rk = true →
      libVideoStep gb d rk video st =
        (⟨⟨st.fs.postsRoot, st.fs.dirs,
            putFile st.fs.files
              (postPath rk (video.referer.cid ++ ".Invalid media type")) blob⟩,
          st.reqs ++ [Req.getBlob d video.referer.cid]⟩, none)) := by
  refine ⟨?_, ?_, ?_, ?_, rfl, rfl, ?_⟩
  · intro s
    unfold MediaType.fromMime
    split_ifs with h1 h2 h3 h4 <;> simp_all
  · intro s
    unfold MediaType.fromMime
    split_ifs with h1 h2 h3 h4 <;> simp_all
  · intro s
    unfold MediaType.fromMime
    split_ifs with h1 h2 h3 h4 <;> simp_all
  · intro s
    unfold MediaType.fromMime
    split_ifs with h1 h2 h3 h4 <;> simp_all
  · intro gb d rk video st blob hm hblob hdir
    have hdir2 : rk ∈ st.fs.dirs := by simpa using hdir
    simp [libVideoStep, hm, hblob, fileCreate, hdir2, MediaType.toExt,
      string_append_dot]

/-- C10 witness: a concrete run of the invalid-extension branch. -/
theorem c10_mime_classifier_exact_witness :
    MediaType.fromMime "video/x-custom" = .invalid ∧
    libVideoStep (fun _ _ => .ok [7]) "d" "3k1" ⟨⟨"vc"⟩, "video/x-custom", 5⟩
        ⟨⟨true, ["3k1"], []⟩, []⟩ =
      (⟨⟨true, ["3k1"],
          putFile [] (postPath "3k1" ("vc" ++ ".Invalid media type")) [7]⟩,
        [Req.getBlob "d" "vc"]⟩, none) :=
  ⟨by decide,
    c10_mime_classifier_exact.2.2.2.2.2.2 (fun _ _ => .ok [7]) "d" "3k1"
      ⟨⟨"vc"⟩, "video/x-custom", 5⟩ ⟨⟨true, ["3k1"], []⟩, []⟩ [7]
      (by decide) rfl (by decide)⟩

/-- C3 counterexample: in the src/main.rs revision the video extension is the
hard-coded `.mp4` (line 252) — a run whose video has the unrecognized MIME
type `video/x-custom` succeeds and writes `vc.mp4`, the playable-sounding
default the claim forbids, although the classifier maps that MIME type to the
invalid marker. -/
theorem c3_main_revision_defaults_video_to_mp4 :
    (mainArchive wNetVidMain wFs wUrl "u" "p").outcome = .ok ∧
    (mainArchive wNetVidMain wFs wUrl "u" "p").fs.files =
      [(postPath "3k1" "raw.json", [1]), (postPath "3k1" "vc.mp4", [7])] ∧
    (MediaType.fromMime "video/x-custom").toExt = "Invalid media type" :=
  ⟨rfl, rfl, rfl⟩

/-- C3 (amended to the src/lib/mod.rs revision): the declared MIME type is
classified through `MediaType` and the blob is written to
`<contentId>.<extension>`; `video/webm` yields `webm`; every unrecognized MIME
string yields the deterministic invalid token `Invalid media type`, which is
none of the playable extensions. -/
theorem c3_lib_revision_video_extension_classification
    (net : LibNet) (fs : Fs) (url u p handle rkey : String)
    (creds : BskyCreds) (did : Did) (bytes : List Nat) (td : LibThreadData)
    (post : LibPostData) (record : LibRecord) (video : LibMediaBlobData)
    (blob : List Nat)
    (hcap : regexCaptures url.data = some (handle.data, rkey.data))
    (hbuild : net.clientBuildOk = true)
    (hcs : net.createSession = .ok creds)
    (hrh : net.resolveHandle handle = .ok did)
    (hgt : net.getThread did.did rkey = .ok (bytes, td))
    (hpost : td.thread.post = some post)
    (hrec : post.record = some record)
    (hembed : record.embed = some ⟨[], some video⟩)
    (hblob : net.getBlob did.did video.referer.cid = .ok blob)
    (hroot : fs.postsRoot = true)
    (hdir : fs.dirs.contains rkey = false)
    (hraw : (fs.files.lookup (postPath rkey "raw.json")).isNone = true) :
    (libArchive net fs true url u p).outcome = .ok ∧
    (libArchive net fs true url u p).fs.files =
      putFile (putFile fs.files (postPath rkey "raw.json") bytes)
        (postPath rkey
          (video.referer.cid ++ "." ++ (MediaType.fromMime video.mime_type).toExt))
        blob ∧
    (MediaType.fromMime "video/webm").toExt = "webm" ∧
    (∀ m : String, m ≠ "video/mp4" → m ≠ "video/mov" → m ≠ "video/webm" →
      m ≠ "video/mpeg" → (MediaType.fromMime m).toExt = "Invalid media type") ∧
    ("Invalid media type" ≠ "mp4" ∧ "Invalid media type" ≠ "mov" ∧
      "Invalid media type" ≠ "webm" ∧ "Invalid media type" ≠ "mpeg") := by
  have hdir2 : rkey ∉ fs.dirs := by simpa using hdir
  refine ⟨?_, ?_, rfl, ?_, by decide⟩
  · simp [libArchive, hcap, string_mk_data, hbuild, hcs, hrh, hgt, hpost, hrec,
      hembed, libCreatePostsRoot, libCreatePostDir, hroot, hdir2, fileCreateNew,
      hraw, libImageLoop, libVideoStep, hblob, fileCreate]
  · simp [libArchive, hcap, string_mk_data, hbuild, hcs, hrh, hgt, hpost, hrec,
      hembed, libCreatePostsRoot, libCreatePostDir, hroot, hdir2, fileCreateNew,
      hraw, libImageLoop, libVideoStep, hblob, fileCreate]
  · intro m h1 h2 h3 h4
    simp [MediaType.fromMime, h1, h2, h3, h4, MediaType.toExt]

/-- C3 witness: concrete run of the src/lib/mod.rs revision with an
unrecognized video MIME type. -/
theorem c3_lib_revision_video_extension_classification_witness :
    (libArchive wLibNetVid wFs true wUrl "u" "p").outcome = .ok ∧
    (libArchive wLibNetVid wFs true wUrl "u" "p").fs.files =
      putFile (putFile wFs.files (postPath "3k1" "raw.json") [1, 2])
        (postPath "3k1"
          ("vc" ++ "." ++ (MediaType.fromMime "video/x-custom").toExt)) [7] ∧
    (MediaType.fromMime "video/webm").toExt = "webm" ∧
    (∀ m : String, m ≠ "video/mp4" → m ≠ "video/mov" → m ≠ "video/webm" →
      m ≠ "video/mpeg" → (MediaType.fromMime m).toExt = "Invalid media type") ∧
    ("Invalid media type" ≠ "mp4" ∧ "Invalid media type" ≠ "mov" ∧
      "Invalid media type" ≠ "webm" ∧ "Invalid media type" ≠ "mpeg") :=
  c3_lib_revision_video_extension_classification wLibNetVid wFs wUrl "u" "p"
    "alice" "3k1" wCreds wDid [1, 2] (wLibThreadOf (some wLibRecVid))
    ⟨some wLibRecVid⟩ wLibRecVid wLvid [7] rfl rfl rfl rfl rfl rfl rfl rfl rfl
    rfl (by decide) rfl

/-- C2 counterexample: in the src/main.rs revision, a run whose per-post
directory `./posts/3k1` already exists (holding a `raw.json` with contents
`[0]`) does not fail — the ignored `create_dir` error (line 202) and the
truncating `File::create` (line 203) make it succeed and silently replace
`raw.json` with the new bytes `[9, 9]`. -/
theorem c2_main_revision_overwrites_existing_archive :
    (mainArchive wNetPlain wFsExisting wUrl "u" "p").outcome = .ok ∧
    (mainArchive wNetPlain wFsExisting wUrl "u" "p").fs.files =
      [(postPath "3k1" "raw.json", [9, 9])] ∧
    wFsExisting.files = [(postPath "3k1" "raw.json", [0])] :=
  ⟨rfl, rfl, rfl⟩

/-- C2 (amended to the src/lib/mod.rs revision): a run that reaches local
persistence while the per-post directory already exists fails with the
`Errors::Io` conflict and leaves the filesystem — including the existing
`raw.json` — unchanged. -/
theorem c2_lib_revision_existing_dir_conflict
    (net : LibNet) (fs : Fs) (url u p handle rkey : String)
    (creds : BskyCreds) (did : Did) (bytes : List Nat) (td : LibThreadData)
    (post : LibPostData) (record : LibRecord)
    (hcap : regexCaptures url.data = some (handle.data, rkey.data))
    (hbuild : net.clientBuildOk = true)
    (hcs : net.createSession = .ok creds)
    (hrh : net.resolveHandle handle = .ok did)
    (hgt : net.getThread did.did rkey = .ok (bytes, td))
    (hpost : td.thread.post = some post)
    (hrec : post.record = some record)
    (hdir : fs.dirs.contains rkey = true) :
    (libArchive net fs true url u p).outcome = .error .ioErr ∧
    (libArchive net fs true url u p).fs = fs := by
  have hdir2 : rkey ∈ fs.dirs := by simpa using hdir
  constructor <;>
    simp [libArchive, hcap, string_mk_data, hbuild, hcs, hrh, hgt, hpost, hrec,
      libCreatePostsRoot, libCreatePostDir, hdir2]

/-- C2 witness: a concrete src/lib/mod.rs run hitting the conflict. -/
theorem c2_lib_revision_existing_dir_conflict_witness :
    (libArchive wLibNetPlain wFsExisting true wUrl "u" "p").outcome =
      .error .ioErr ∧
    (libArchive wLibNetPlain wFsExisting true wUrl "u" "p").fs = wFsExisting :=
  c2_lib_revision_existing_dir_conflict wLibNetPlain wFsExisting wUrl "u" "p"
    "alice" "3k1" wCreds wDid [9, 9] (wLibThreadOf (some ⟨none⟩)) ⟨some ⟨none⟩⟩
    ⟨none⟩ rfl rfl rfl rfl rfl rfl rfl rfl

/-! ## C1 — stop-on-missing-reference in the image gallery -/

/-- Once an image with an absent reference is reached, the loop of
src/main.rs behaves as if the gallery ended just before it: the `break`
abandons the bad image and everything after it. -/
lemma mainImageLoop_stop (gb : String → String → FetchResult) (d rk : String)
    (bad : RecordEmbedMedia) (hbad : refCid bad = none)
    (pre rest : List RecordEmbedMedia) (st : MState) :
    mainImageLoop gb d rk (pre ++ bad :: rest) st = mainImageLoop gb d rk pre st := by
  induction pre generalizing st with
  | nil =>
    match hb : bad.image with
    | none => simp [mainImageLoop, hb]
    | some image =>
      match hr : image.referer with
      | none => simp [mainImageLoop, hb, hr]
      | some referer => simp [refCid, hb, hr] at hbad
  | cons i pre ih =>
    simp only [List.cons_append, mainImageLoop]
    repeat' split
    all_goals first | rfl | exact ih _

/-- C1: processed in array order, an image whose media reference is absent
makes the downloader skip all remaining images of the gallery (the general
first conjunct), and concretely a run over a gallery `i1 :: i2 :: rest` whose
second image has no reference produces exactly one image file — the first —
fetches no blob beyond the first image's, and still succeeds. -/
theorem c1_image_gallery_stops_on_missing_reference
    (net : Net) (fs : Fs) (url u p handle rkey : String)
    (creds : BskyCreds) (did : Did) (bytes : List Nat) (td : ThreadData)
    (post : PostData) (record : Record) (embed : RecordEmbed)
    (i1 i2 : RecordEmbedMedia) (rest : List RecordEmbedMedia)
    (image1 : MediaBlobData) (r1 : ImageRef) (blob1 : List Nat)
    (hcap : regexCaptures url.data = some (handle.data, rkey.data))
    (hbuild : net.clientBuildOk = true)
    (hcs : net.createSession = .ok creds)
    (hrh : net.resolveHandle handle = .ok did)
    (hgt : net.getThread did.did rkey = .ok (bytes, td))
    (hpost : td.thread.post = some post)
    (hrec : post.record = some record)
    (hembed : record.embed = some embed)
    (himgs : embed.images = i1 :: i2 :: rest)
    (hvid : embed.video = none)
    (hi1 : i1.image = some image1)
    (hr1 : image1.referer = some r1)
    (hblob : net.getBlob did.did r1.resource_cid = .ok blob1)
    (hbad : refCid i2 = none)
    (hroot : fs.postsRoot = true)
    (hdir : fs.dirs.contains rkey = false) :
    (∀ (gb : String → String → FetchResult) (d rk2 : String)
        (pre rest2 : List RecordEmbedMedia) (st : MState),
      mainImageLoop gb d rk2 (pre ++ i2 :: rest2) st =
        mainImageLoop gb d rk2 pre st) ∧
    mainArchive net fs url u p =
      ⟨.ok,
        ⟨true, rkey :: fs.dirs,
          putFile (putFile fs.files (postPath rkey "raw.json") bytes)
            (postPath rkey (r1.resource_cid ++ ".png")) blob1⟩,
        [Req.createSession, Req.resolveHandle handle, Req.getThread did.did rkey,
          Req.getBlob did.did r1.resource_cid, Req.mirror (mirrorUrl url)]⟩ := by
  refine ⟨fun gb d rk2 pre rest2 st => mainImageLoop_stop gb d rk2 i2 hbad pre rest2 st, ?_⟩
  have hdir2 : rkey ∉ fs.dirs := by simpa using hdir
  have h2 : i2.image = none ∨ ∃ im, i2.image = some im ∧ im.referer = none := by
    cases hb : i2.image with
    | none => exact Or.inl rfl
    | some im =>
      cases hr : im.referer with
      | none => exact Or.inr ⟨im, rfl, hr⟩
      | some r => simp [refCid, hb, hr] at hbad
  rcases h2 with h2 | ⟨im, h2, h3⟩
  · simp [mainArchive, hcap, string_mk_data, hbuild, hcs, hrh, hgt, hpost, hrec,
      hembed, himgs, hvid, createDirIgnored, hroot, hdir2, fileCreate,
      mainImageLoop, hi1, hr1, hblob, h2, mainFinish]
  · simp [mainArchive, hcap, string_mk_data, hbuild, hcs, hrh, hgt, hpost, hrec,
      hembed, himgs, hvid, createDirIgnored, hroot, hdir2, fileCreate,
      mainImageLoop, hi1, hr1, hblob, h2, h3, mainFinish]

/-- C1 witness: the concrete three-image gallery whose second image has no
reference — exactly one image file and one image blob fetch. -/
theorem c1_image_gallery_stops_on_missing_reference_witness :
    (∀ (gb : String → String → FetchResult) (d rk2 : String)
        (pre rest2 : List RecordEmbedMedia) (st : MState),
      mainImageLoop gb d rk2 (pre ++ wImgNoRef :: rest2) st =
        mainImageLoop gb d rk2 pre st) ∧
    mainArchive wNetC1 wFs wUrl "u" "p" =
      ⟨.ok,
        ⟨true, "3k1" :: wFs.dirs,
          putFile (putFile wFs.files (postPath "3k1" "raw.json") [1, 2])
            (postPath "3k1" ((⟨"c1"⟩ : ImageRef).resource_cid ++ ".png")) [7]⟩,
        [Req.createSession, Req.resolveHandle "alice", Req.getThread "did:plc:w" "3k1",
          Req.getBlob "did:plc:w" (⟨"c1"⟩ : ImageRef).resource_cid,
          Req.mirror (mirrorUrl wUrl)]⟩ :=
  c1_image_gallery_stops_on_missing_reference wNetC1 wFs wUrl "u" "p" "alice"
    "3k1" wCreds wDid [1, 2] (wThread (some wRecC1)) (wPost (some wRecC1)) wRecC1
    wEmbedC1 (wImg "c1") wImgNoRef [wImg "c3"] ⟨none, some ⟨"c1"⟩, "image/jpeg", 10⟩
    ⟨"c1"⟩ [7] rfl rfl rfl rfl rfl rfl rfl rfl rfl rfl rfl rfl rfl rfl rfl rfl

/-! ## C4 — video absence fatal, image absence soft -/

/-- C4: in src/main.rs `archive`, a present video whose blob reference is
absent terminates the whole process with `exit(71)` (lines 236–239), while an
absent image reference merely breaks the gallery loop and lets the run
continue without error (lines 210–217): the asymmetry is preserved. -/
theorem c4_video_reference_fatal_image_reference_soft
    (net : Net) (fs : Fs) (url u p handle rkey : String)
    (creds : BskyCreds) (did : Did) (bytes : List Nat) (td : ThreadData)
    (post : PostData) (record : Record) (embed : RecordEmbed)
    (video : MediaBlobData)
    (hcap : regexCaptures url.data = some (handle.data, rkey.data))
    (hbuild : net.clientBuildOk = true)
    (hcs : net.createSession = .ok creds)
    (hrh : net.resolveHandle handle = .ok did)
    (hgt : net.getThread did.did rkey = .ok (bytes, td))
    (hpost : td.thread.post = some post)
    (hrec : post.record = some record)
    (hembed : record.embed = some embed)
    (hvid : embed.video = some video)
    (hvidref : video.referer = none)
    (hroot : fs.postsRoot = true)
    (hdir : fs.dirs.contains rkey = false)
    (hloop : (mainImageLoop net.getBlob did.did rkey embed.images
        ⟨⟨true, rkey :: fs.dirs, putFile fs.files (postPath rkey "raw.json") bytes⟩,
          [Req.createSession, Req.resolveHandle handle,
            Req.getThread did.did rkey]⟩).2 = none) :
    (mainArchive net fs url u p).outcome = .exited 71 ∧
    (∀ (gb : String → String → FetchResult) (d rk : String)
        (bad : RecordEmbedMedia) (rest : List RecordEmbedMedia) (st : MState),
      refCid bad = none →
      mainImageLoop gb d rk (bad :: rest) st = (st, none)) := by
  constructor
  · have hdir2 : rkey ∉ fs.dirs := by simpa using hdir
    simp [mainArchive, hcap, string_mk_data, hbuild, hcs, hrh, hgt, hpost, hrec,
      hembed, hvid, createDirIgnored, hroot, hdir2, fileCreate, hloop,
      mainVideoStep, hvidref]
  · intro gb d rk bad rest st hbad
    simpa [mainImageLoop] using mainImageLoop_stop gb d rk bad hbad [] rest st

/-- C4 witness: a concrete run whose video reference is absent exits with 71,
and a concrete gallery entry without reference is soft-skipped. -/
theorem c4_video_reference_fatal_image_reference_soft_witness :
    (mainArchive wNetC4 wFs wUrl "u" "p").outcome = .exited 71 ∧
    (∀ (gb : String → String → FetchResult) (d rk : String)
        (bad : RecordEmbedMedia) (rest : List RecordEmbedMedia) (st : MState),
      refCid bad = none →
      mainImageLoop gb d rk (bad :: rest) st = (st, none)) :=
  c4_video_reference_fatal_image_reference_soft wNetC4 wFs wUrl "u" "p" "alice"
    "3k1" wCreds wDid [1] (wThread (some wRecC4)) (wPost (some wRecC4)) wRecC4
    ⟨none, [], none, none, some wVidNoRef⟩ wVidNoRef rfl rfl rfl rfl rfl rfl rfl
    rfl rfl rfl rfl rfl rfl

/-- C9: every gallery image that is downloaded is persisted at
`./posts/<recordKey>/<contentId>.png` — conjunct one shows the single
processing step of the src/main.rs loop writes exactly that path; conjunct
two shows the loop's behaviour is invariant under arbitrary rewriting of the
declared image MIME types (the content type is never introspected; the blob
bytes `blob` are arbitrary); conjunct three shows the src/lib/mod.rs loop
writes the same path. -/
theorem c9_images_persisted_as_png_unconditionally :
    (∀ (gb : String → String → FetchResult) (d rk : String)
        (img : RecordEmbedMedia) (rest : List RecordEmbedMedia) (st : MState)
        (image : MediaBlobData) (referer : ImageRef) (blob : List Nat),
      img.image = some image → image.referer = some referer →
      gb d referer.resource_cid = .ok blob →
      st.fs.dirs.contains rk = true →
      mainImageLoop gb d rk (img :: rest) st =
        mainImageLoop gb d rk rest
          ⟨⟨st.fs.postsRoot, st.fs.dirs,
              putFile st.fs.files (postPath rk (referer.resource_cid ++ ".png")) blob⟩,
            st.reqs ++ [Req.getBlob d referer.resource_cid]⟩) ∧
    (∀ (gb : String → String → FetchResult) (d rk : String)
        (f : String → String) (imgs : List RecordEmbedMedia) (st : MState),
      mainImageLoop gb d rk (imgs.map (setImageMime f)) st =
        mainImageLoop gb d rk imgs st) ∧
    (∀ (gb : String → String → FetchResult) (d rk : String)
        (img : LibRecordEmbedMedia) (rest : List LibRecordEmbedMedia)
        (st : MState) (blob : List Nat),
      gb d img.image.referer.cid = .ok blob →
      st.fs.dirs.contains rk = true →
      libImageLoop gb d rk (img :: rest) st =
        libImageLoop gb d rk rest
          ⟨⟨st.fs.postsRoot, st.fs.dirs,
              putFile st.fs.files (postPath rk (img.image.referer.cid ++ ".png")) blob⟩,
            st.reqs ++ [Req.getBlob d img.image.referer.cid]⟩) := by
  refine ⟨?_, ?_, ?_⟩
  · intro gb d rk img rest st image referer blob hi hr hg hdir
    have hdir2 : rk ∈ st.fs.dirs := by simpa using hdir
    simp [mainImageLoop, hi, hr, hg, fileCreate, hdir2]
  · intro gb d rk f imgs
    induction imgs with
    | nil => intro st; rfl
    | cons i imgs ih =>
      intro st
      cases hi : i.image with
      | none => simp [mainImageLoop, setImageMime, hi]
      | some ib =>
        cases hr : ib.referer with
        | none => simp [mainImageLoop, setImageMime, hi, hr]
        | some r =>
          cases hg : gb d r.resource_cid with
          | sendErr => simp [mainImageLoop, setImageMime, hi, hr, hg]
          | bytesErr => simp [mainImageLoop, setImageMime, hi, hr, hg]
          | ok blob =>
            cases hf : fileCreate st.fs rk (r.resource_cid ++ ".png") blob with
            | none =>
              simp only [mainImageLoop, setImageMime, hi, hr, hg] at hf ⊢
              simp [hr, hg, hf]
            | some fs2 => simp [mainImageLoop, setImageMime, hi, hr, hg, hf, ih]
  · intro gb d rk img rest st blob hg hdir
    have hdir2 : rk ∈ st.fs.dirs := by simpa using hdir
    simp [libImageLoop, hg, fileCreate, hdir2]

/-- C9 witness: concrete single-image runs of both loops, plus a concrete
MIME rewrite that leaves the run unchanged. -/
theorem c9_images_persisted_as_png_unconditionally_witness :
    mainImageLoop (fun _ _ => .ok [7]) "d" "3k1" [wImg "c1"] ⟨⟨true, ["3k1"], []⟩, []⟩ =
      mainImageLoop (fun _ _ => .ok [7]) "d" "3k1" []
        ⟨⟨true, ["3k1"], putFile [] (postPath "3k1" ("c1" ++ ".png")) [7]⟩,
          [] ++ [Req.getBlob "d" "c1"]⟩ ∧
    mainImageLoop (fun _ _ => .ok [7]) "d" "3k1"
        ([wImg "c1"].map (setImageMime fun _ => "text/plain"))
        ⟨⟨true, ["3k1"], []⟩, []⟩ =
      mainImageLoop (fun _ _ => .ok [7]) "d" "3k1" [wImg "c1"] ⟨⟨true, ["3k1"], []⟩, []⟩ ∧
    libImageLoop (fun _ _ => .ok [7]) "d" "3k1" [⟨⟨⟨"c1"⟩, "image/jpeg", 10⟩⟩]
        ⟨⟨true, ["3k1"], []⟩, []⟩ =
      libImageLoop (fun _ _ => .ok [7]) "d" "3k1" []
        ⟨⟨true, ["3k1"], putFile [] (postPath "3k1" ("c1" ++ ".png")) [7]⟩,
          [] ++ [Req.getBlob "d" "c1"]⟩ :=
  ⟨c9_images_persisted_as_png_unconditionally.1 (fun _ _ => .ok [7]) "d" "3k1"
      (wImg "c1") [] ⟨⟨true, ["3k1"], []⟩, []⟩ ⟨none, some ⟨"c1"⟩, "image/jpeg", 10⟩
      ⟨"c1"⟩ [7] rfl rfl rfl rfl,
    c9_images_persisted_as_png_unconditionally.2.1 (fun _ _ => .ok [7]) "d" "3k1"
      (fun _ => "text/plain") [wImg "c1"] ⟨⟨true, ["3k1"], []⟩, []⟩,
    c9_images_persisted_as_png_unconditionally.2.2 (fun _ _ => .ok [7]) "d" "3k1"
      ⟨⟨⟨"c1"⟩, "image/jpeg", 10⟩⟩ [] ⟨⟨true, ["3k1"], []⟩, []⟩ [7] rfl rfl⟩

/-! ## C6 — absent `thread.post` short-circuits successfully -/

/-- C6: in both revisions, when `thread.post` is absent the run returns
success, the filesystem is untouched (no directory, no raw.json, no media)
and no blob fetch is attempted — the request list holds exactly the three
pipeline calls (plus, in the src/main.rs revision, the mirror request). -/
theorem c6_absent_post_completes_with_no_writes
    (net : Net) (lnet : LibNet) (fs lfs : Fs) (pde : Bool)
    (url u p url2 u2 p2 handle rkey handle2 rkey2 : String)
    (creds lcreds : BskyCreds) (did ldid : Did) (bytes lbytes : List Nat)
    (td : ThreadData) (ltd : LibThreadData)
    (hcap : regexCaptures url.data = some (handle.data, rkey.data))
    (hbuild : net.clientBuildOk = true)
    (hcs : net.createSession = .ok creds)
    (hrh : net.resolveHandle handle = .ok did)
    (hgt : net.getThread did.did rkey = .ok (bytes, td))
    (hpost : td.thread.post = none)
    (hcap2 : regexCaptures url2.data = some (handle2.data, rkey2.data))
    (hbuild2 : lnet.clientBuildOk = true)
    (hcs2 : lnet.createSession = .ok lcreds)
    (hrh2 : lnet.resolveHandle handle2 = .ok ldid)
    (hgt2 : lnet.getThread ldid.did rkey2 = .ok (lbytes, ltd))
    (hpost2 : ltd.thread.post = none) :
    mainArchive net fs url u p =
      ⟨.ok, fs, [Req.createSession, Req.resolveHandle handle,
        Req.getThread did.did rkey, Req.mirror (mirrorUrl url)]⟩ ∧
    libArchive lnet lfs pde url2 u2 p2 =
      ⟨.ok, lfs, [Req.createSession, Req.resolveHandle handle2,
        Req.getThread ldid.did rkey2]⟩ := by
  constructor
  · simp [mainArchive, hcap, string_mk_data, hbuild, hcs, hrh, hgt, hpost,
      mainFinish]
  · simp [libArchive, hcap2, string_mk_data, hbuild2, hcs2, hrh2, hgt2, hpost2]

/-- C6 witness: concrete runs of both revisions with `thread.post` absent. -/
theorem c6_absent_post_completes_with_no_writes_witness :
    mainArchive wNetNoPost wFs wUrl "u" "p" =
      ⟨.ok, wFs, [Req.createSession, Req.resolveHandle "alice",
        Req.getThread "did:plc:w" "3k1", Req.mirror (mirrorUrl wUrl)]⟩ ∧
    libArchive wLibNetNoPost wFs true wUrl "u" "p" =
      ⟨.ok, wFs, [Req.createSession, Req.resolveHandle "alice",
        Req.getThread "did:plc:w" "3k1"]⟩ :=
  c6_absent_post_completes_with_no_writes wNetNoPost wLibNetNoPost wFs wFs true
    wUrl "u" "p" wUrl "u" "p" "alice" "3k1" "alice" "3k1" wCreds wCreds wDid wDid
    [5] [5] ⟨⟨none, none, none⟩⟩ ⟨⟨none⟩⟩ rfl rfl rfl rfl rfl rfl rfl rfl rfl rfl
    rfl rfl

/-! ## C5 — best-effort mirror request -/

/-- C5 (amended to the src/main.rs revision): every successful run has issued
the GET to the web-archive save endpoint for the original URL (first
conjunct), and the response of that endpoint — success or any failure — never
influences the run at all (second conjunct: the result is invariant under an
arbitrary replacement of the mirror oracle). -/
theorem c5_main_revision_mirror_best_effort :
    (∀ (net : Net) (fs : Fs) (url u p : String),
      (mainArchive net fs url u p).outcome = .ok →
      Req.mirror (mirrorUrl url) ∈ (mainArchive net fs url u p).reqs) ∧
    (∀ (net : Net) (fs : Fs) (url u p : String) (fr : FetchResult),
      mainArchive { net with mirror := fr } fs url u p =
        mainArchive net fs url u p) := by
  constructor
  · intro net fs url u p
    rcases hcap : regexCaptures url.data with _ | capt
    · intro hok
      simp [mainArchive, hcap] at hok
    rcases hbuild : net.clientBuildOk with _ | _
    · intro hok
      simp [mainArchive, hcap, hbuild] at hok
    rcases hcs : net.createSession with _ | _ | _ | creds
    · intro hok
      simp [mainArchive, hcap, hbuild, hcs] at hok
    · intro hok
      simp [mainArchive, hcap, hbuild, hcs] at hok
    · intro hok
      simp [mainArchive, hcap, hbuild, hcs] at hok
    rcases hrh : net.resolveHandle (String.mk capt.1) with _ | _ | _ | did
    · intro hok
      simp [mainArchive, hcap, hbuild, hcs, hrh] at hok
    · intro hok
      simp [mainArchive, hcap, hbuild, hcs, hrh] at hok
    · intro hok
      simp [mainArchive, hcap, hbuild, hcs, hrh] at hok
    rcases hgt : net.getThread did.did (String.mk capt.2) with _ | _ | _ | tr
    · intro hok
      simp [mainArchive, hcap, hbuild, hcs, hrh, hgt] at hok
    · intro hok
      simp [mainArchive, hcap, hbuild, hcs, hrh, hgt] at hok
    · intro hok
      simp [mainArchive, hcap, hbuild, hcs, hrh, hgt] at hok
    rcases hpost : tr.2.thread.post with _ | post
    · intro hok
      simp [mainArchive, hcap, hbuild, hcs, hrh, hgt, hpost, mainFinish]
    rcases hrec : post.record with _ | record
    · intro hok
      simp [mainArchive, hcap, hbuild, hcs, hrh, hgt, hpost, hrec, mainFinish]
    rcases hfc : fileCreate (createDirIgnored fs (String.mk capt.2))
        (String.mk capt.2) "raw.json" tr.1 with _ | fs2
    · intro hok
      simp [mainArchive, hcap, hbuild, hcs, hrh, hgt, hpost, hrec, hfc] at hok
    rcases hembed : record.embed with _ | media
    · intro hok
      simp [mainArchive, hcap, hbuild, hcs, hrh, hgt, hpost, hrec, hfc, hembed,
        mainFinish]
    rcases hlp : (mainImageLoop net.getBlob did.did (String.mk capt.2)
        media.images
        ⟨fs2, [Req.createSession, Req.resolveHandle (String.mk capt.1),
          Req.getThread did.did (String.mk capt.2)]⟩).2 with _ | e
    case some =>
      intro hok
      simp [mainArchive, hcap, hbuild, hcs, hrh, hgt, hpost, hrec, hfc, hembed,
        hlp] at hok
    rcases hvid : media.video with _ | video
    · intro hok
      simp [mainArchive, hcap, hbuild, hcs, hrh, hgt, hpost, hrec, hfc, hembed,
        hlp, hvid, mainFinish]
    rcases hvs : (mainVideoStep net.getBlob did.did (String.mk capt.2) video
        (mainImageLoop net.getBlob did.did (String.mk capt.2) media.images
          ⟨fs2, [Req.createSession, Req.resolveHandle (String.mk capt.1),
            Req.getThread did.did (String.mk capt.2)]⟩).1).2
      with _ | e | c | m
    · intro hok
      simp [mainArchive, hcap, hbuild, hcs, hrh, hgt, hpost, hrec, hfc, hembed,
        hlp, hvid, hvs, mainFinish]
    · intro hok
      simp [mainArchive, hcap, hbuild, hcs, hrh, hgt, hpost, hrec, hfc, hembed,
        hlp, hvid, hvs] at hok
    · intro hok
      simp [mainArchive, hcap, hbuild, hcs, hrh, hgt, hpost, hrec, hfc, hembed,
        hlp, hvid, hvs] at hok
    · intro hok
      simp [mainArchive, hcap, hbuild, hcs, hrh, hgt, hpost, hrec, hfc, hembed,
        hlp, hvid, hvs] at hok
  · intro net fs url u p fr
    cases net
    rfl

/-- C5 counterexample: the src/lib/mod.rs revision never contacts the
web-archive save endpoint — the call (line 269) is commented out.  A concrete
run that completes local persistence issues exactly the three pipeline
requests and no mirror request. -/
theorem c5_lib_revision_issues_no_mirror_request :
    (libArchive wLibNetPlain wFs true wUrl "u" "p").outcome = .ok ∧
    (libArchive wLibNetPlain wFs true wUrl "u" "p").reqs =
      [Req.createSession, Req.resolveHandle "alice",
        Req.getThread "did:plc:w" "3k1"] ∧
    Req.mirror (mirrorUrl wUrl) ∉ (libArchive wLibNetPlain wFs true wUrl "u" "p").reqs := by
  refine ⟨rfl, rfl, ?_⟩
  decide

/-- C5 witness: a concrete successful src/main.rs run contains the mirror
request, and swapping the mirror oracle's answer changes nothing. -/
theorem c5_main_revision_mirror_best_effort_witness :
    (mainArchive wNetPlain wFs wUrl "u" "p").outcome = .ok ∧
    Req.mirror (mirrorUrl wUrl) ∈ (mainArchive wNetPlain wFs wUrl "u" "p").reqs ∧
    mainArchive { wNetPlain with mirror := .bytesErr } wFs wUrl "u" "p" =
      mainArchive wNetPlain wFs wUrl "u" "p" :=
  ⟨rfl,
    c5_main_revision_mirror_best_effort.1 wNetPlain wFs wUrl "u" "p" rfl,
    c5_main_revision_mirror_best_effort.2 wNetPlain wFs wUrl "u" "p" .bytesErr⟩

/-! ## C7 — unmatched URL: immediate distinct exit, no network -/

/-- The video branch can only exit with code 71. -/
lemma mainVideoStep_exit_code (gb : String → String → FetchResult)
    (d rk : String) (video : MediaBlobData) (st : MState) (c : Nat)
    (h : (mainVideoStep gb d rk video st).2 = .exited c) : c = 71 := by
  unfold mainVideoStep at h
  rcases hvr : video.referer with _ | referer
  · simp [hvr] at h
    omega
  · simp only [hvr] at h
    rcases hgb : gb d referer.resource_cid with _ | _ | blob
    · simp [hgb] at h
    · simp [hgb] at h
    · simp only [hgb] at h
      rcases hfc : fileCreate st.fs rk (referer.resource_cid ++ ".mp4") blob with _ | fs2
      · simp [hfc] at h
      · simp [hfc] at h

/-- C7: a URL the pattern does not match makes src/main.rs `archive` stop at
once with `exit(69)` — before the HTTP client is even built, so with an empty
request list — and src/lib/mod.rs `archive` likewise with `exit(100)`; both
codes are nonzero, and the codes are distinct from every other failure exit:
a matched src/main.rs run can only exit with 71 (never 69), and a matched
src/lib/mod.rs run never exits at all. -/
theorem c7_unmatched_url_exits_distinctly_without_network
    (net : Net) (lnet : LibNet) (fs lfs : Fs) (pde : Bool) (url u p u2 p2 : String)
    (hcap : regexCaptures url.data = none) :
    mainArchive net fs url u p = ⟨.exited 69, fs, []⟩ ∧
    libArchive lnet lfs pde url u2 p2 = ⟨.exited 100, lfs, []⟩ ∧
    (69 : Nat) ≠ 0 ∧ (100 : Nat) ≠ 0 ∧
    (∀ (net2 : Net) (fs2 : Fs) (url2 u3 p3 : String),
      regexCaptures url2.data ≠ none →
      ∀ c : Nat, (mainArchive net2 fs2 url2 u3 p3).outcome = .exited c → c = 71) ∧
    (∀ (lnet2 : LibNet) (lfs2 : Fs) (pde2 : Bool) (url2 u3 p3 : String),
      regexCaptures url2.data ≠ none →
      ∀ c : Nat, (libArchive lnet2 lfs2 pde2 url2 u3 p3).outcome ≠ .exited c) := by
  refine ⟨by simp [mainArchive, hcap], by simp [libArchive, hcap], by omega,
    by omega, ?_, ?_⟩
  · intro net2 fs2 url2 u3 p3 hm c
    rcases hc2 : regexCaptures url2.data with _ | capt
    · exact absurd hc2 hm
    rcases hbuild : net2.clientBuildOk with _ | _
    · intro hex
      simp [mainArchive, hc2, hbuild] at hex
    rcases hcs : net2.createSession with _ | _ | _ | creds
    · intro hex
      simp [mainArchive, hc2, hbuild, hcs] at hex
    · intro hex
      simp [mainArchive, hc2, hbuild, hcs] at hex
    · intro hex
      simp [mainArchive, hc2, hbuild, hcs] at hex
    rcases hrh : net2.resolveHandle (String.mk capt.1) with _ | _ | _ | did
    · intro hex
      simp [mainArchive, hc2, hbuild, hcs, hrh] at hex
    · intro hex
      simp [mainArchive, hc2, hbuild, hcs, hrh] at hex
    · intro hex
      simp [mainArchive, hc2, hbuild, hcs, hrh] at hex
    rcases hgt : net2.getThread did.did (String.mk capt.2) with _ | _ | _ | tr
    · intro hex
      simp [mainArchive, hc2, hbuild, hcs, hrh, hgt] at hex
    · intro hex
      simp [mainArchive, hc2, hbuild, hcs, hrh, hgt] at hex
    · intro hex
      simp [mainArchive, hc2, hbuild, hcs, hrh, hgt] at hex
    rcases hpost : tr.2.thread.post with _ | post
    · intro hex
      simp [mainArchive, hc2, hbuild, hcs, hrh, hgt, hpost, mainFinish] at hex
    rcases hrec : post.record with _ | record
    · intro hex
      simp [mainArchive, hc2, hbuild, hcs, hrh, hgt, hpost, hrec, mainFinish] at hex
    rcases hfc : fileCreate (createDirIgnored fs2 (String.mk capt.2))
        (String.mk capt.2) "raw.json" tr.1 with _ | fsB
    · intro hex
      simp [mainArchive, hc2, hbuild, hcs, hrh, hgt, hpost, hrec, hfc] at hex
    rcases hembed : record.embed with _ | media
    · intro hex
      simp [mainArchive, hc2, hbuild, hcs, hrh, hgt, hpost, hrec, hfc, hembed,
        mainFinish] at hex
    rcases hlp : (mainImageLoop net2.getBlob did.did (String.mk capt.2)
        media.images
        ⟨fsB, [Req.createSession, Req.resolveHandle (String.mk capt.1),
          Req.getThread did.did (String.mk capt.2)]⟩).2 with _ | e
    case some =>
      intro hex
      simp [mainArchive, hc2, hbuild, hcs, hrh, hgt, hpost, hrec, hfc, hembed,
        hlp] at hex
    rcases hvid : media.video with _ | video
    · intro hex
      simp [mainArchive, hc2, hbuild, hcs, hrh, hgt, hpost, hrec, hfc, hembed,
        hlp, hvid, mainFinish] at hex
    rcases hvs : (mainVideoStep net2.getBlob did.did (String.mk capt.2) video
        (mainImageLoop net2.getBlob did.did (String.mk capt.2) media.images
          ⟨fsB, [Req.createSession, Req.resolveHandle (String.mk capt.1),
            Req.getThread did.did (String.mk capt.2)]⟩).1).2
      with _ | e | cx | m
    · intro hex
      simp [mainArchive, hc2, hbuild, hcs, hrh, hgt, hpost, hrec, hfc, hembed,
        hlp, hvid, hvs, mainFinish] at hex
    · intro hex
      simp [mainArchive, hc2, hbuild, hcs, hrh, hgt, hpost, hrec, hfc, hembed,
        hlp, hvid, hvs] at hex
    · intro hex
      have hcx : cx = 71 := mainVideoStep_exit_code _ _ _ _ _ _ hvs
      simp [mainArchive, hc2, hbuild, hcs, hrh, hgt, hpost, hrec, hfc, hembed,
        hlp, hvid, hvs] at hex
      omega
    · intro hex
      simp [mainArchive, hc2, hbuild, hcs, hrh, hgt, hpost, hrec, hfc, hembed,
        hlp, hvid, hvs] at hex
  · intro lnet2 lfs2 pde2 url2 u3 p3 hm c
    rcases hc2 : regexCaptures url2.data with _ | capt
    · exact absurd hc2 hm
    rcases hbuild : lnet2.clientBuildOk with _ | _
    · intro hex
      simp [libArchive, hc2, hbuild] at hex
    rcases hcs : lnet2.createSession with _ | _ | _ | creds
    · intro hex
      simp [libArchive, hc2, hbuild, hcs] at hex
    · intro hex
      simp [libArchive, hc2, hbuild, hcs] at hex
    · intro hex
      simp [libArchive, hc2, hbuild, hcs] at hex
    rcases hrh : lnet2.resolveHandle (String.mk capt.1) with _ | _ | _ | did
    · intro hex
      simp [libArchive, hc2, hbuild, hcs, hrh] at hex
    · intro hex
      simp [libArchive, hc2, hbuild, hcs, hrh] at hex
    · intro hex
      simp [libArchive, hc2, hbuild, hcs, hrh] at hex
    rcases hgt : lnet2.getThread did.did (String.mk capt.2) with _ | _ | _ | tr
    · intro hex
      simp [libArchive, hc2, hbuild, hcs, hrh, hgt] at hex
    · intro hex
      simp [libArchive, hc2, hbuild, hcs, hrh, hgt] at hex
    · intro hex
      simp [libArchive, hc2, hbuild, hcs, hrh, hgt] at hex
    rcases hpost : tr.2.thread.post with _ | post
    · intro hex
      simp [libArchive, hc2, hbuild, hcs, hrh, hgt, hpost] at hex
    rcases hrec : post.record with _ | record
    · intro hex
      simp [libArchive, hc2, hbuild, hcs, hrh, hgt, hpost, hrec] at hex
    rcases hcr : libCreatePostsRoot lfs2 pde2 with _ | fsA
    · intro hex
      simp [libArchive, hc2, hbuild, hcs, hrh, hgt, hpost, hrec, hcr] at hex
    rcases hcd : libCreatePostDir fsA (String.mk capt.2) with _ | fsB
    · intro hex
      simp [libArchive, hc2, hbuild, hcs, hrh, hgt, hpost, hrec, hcr, hcd] at hex
    rcases hfn : fileCreateNew fsB (String.mk capt.2) "raw.json" tr.1 with _ | fsC
    · intro hex
      simp [libArchive, hc2, hbuild, hcs, hrh, hgt, hpost, hrec, hcr, hcd,
        hfn] at hex
    rcases hembed : record.embed with _ | media
    · intro hex
      simp [libArchive, hc2, hbuild, hcs, hrh, hgt, hpost, hrec, hcr, hcd, hfn,
        hembed] at hex
    rcases hlp : (libImageLoop lnet2.getBlob did.did (String.mk capt.2)
        media.images
        ⟨fsC, [Req.createSession, Req.resolveHandle (String.mk capt.1),
          Req.getThread did.did (String.mk capt.2)]⟩).2 with _ | e
    case some =>
      intro hex
      simp [libArchive, hc2, hbuild, hcs, hrh, hgt, hpost, hrec, hcr, hcd, hfn,
        hembed, hlp] at hex
    rcases hvid : media.video with _ | video
    · intro hex
      simp [libArchive, hc2, hbuild, hcs, hrh, hgt, hpost, hrec, hcr, hcd, hfn,
        hembed, hlp, hvid] at hex
    rcases hvs : (libVideoStep lnet2.getBlob did.did (String.mk capt.2) video
        (libImageLoop lnet2.getBlob did.did (String.mk capt.2) media.images
          ⟨fsC, [Req.createSession, Req.resolveHandle (String.mk capt.1),
            Req.getThread did.did (String.mk capt.2)]⟩).1).2
      with _ | e
    · intro hex
      simp [libArchive, hc2, hbuild, hcs, hrh, hgt, hpost, hrec, hcr, hcd, hfn,
        hembed, hlp, hvid, hvs] at hex
    · intro hex
      simp [libArchive, hc2, hbuild, hcs, hrh, hgt, hpost, hrec, hcr, hcd, hfn,
        hembed, hlp, hvid, hvs] at hex

/-- C7 witness: a concrete non-matching URL. -/
theorem c7_unmatched_url_exits_distinctly_without_network_witness :
    mainArchive (wNet .sendErr) wFs wBadUrl "u" "p" = ⟨.exited 69, wFs, []⟩ ∧
    libArchive (wLibNet .sendErr) wFs true wBadUrl "u" "p" =
      ⟨.exited 100, wFs, []⟩ ∧
    (69 : Nat) ≠ 0 ∧ (100 : Nat) ≠ 0 ∧
    (∀ (net2 : Net) (fs2 : Fs) (url2 u3 p3 : String),
      regexCaptures url2.data ≠ none →
      ∀ c : Nat, (mainArchive net2 fs2 url2 u3 p3).outcome = .exited c → c = 71) ∧
    (∀ (lnet2 : LibNet) (lfs2 : Fs) (pde2 : Bool) (url2 u3 p3 : String),
      regexCaptures url2.data ≠ none →
      ∀ c : Nat, (libArchive lnet2 lfs2 pde2 url2 u3 p3).outcome ≠ .exited c) :=
  c7_unmatched_url_exits_distinctly_without_network (wNet .sendErr)
    (wLibNet .sendErr) wFs wFs true wBadUrl "u" "p" "u" "p" (by decide)

/-! ## C8 — extraction is exact and injective on canonical post URLs -/

/-- A match attempt at the start of `profile/<h>/post/<k>` captures exactly
`(h, k)`. -/
lemma tryMatchAt_canonical (h k : List Char)
    (hh : h ≠ []) (hhc : ∀ c ∈ h, isHandleChar c = true)
    (hk : k ≠ []) (hkc : ∀ c ∈ k, isRkeyChar c = true) :
    tryMatchAt (profileLit ++ (h ++ (postLit ++ k))) = some (h, k) := by
  have hpre : profileLit.isPrefixOf (profileLit ++ (h ++ (postLit ++ k))) = true := by
    rw [List.isPrefixOf_iff_prefix]
    exact List.prefix_append _ _
  have hdrop : (profileLit ++ (h ++ (postLit ++ k))).drop profileLit.length =
      h ++ (postLit ++ k) := List.drop_left _ _
  have hrun : takeRun isHandleChar (h ++ (postLit ++ k)) = (h, postLit ++ k) := by
    have hform : h ++ (postLit ++ k) = h ++ '/' :: (['p', 'o', 's', 't', '/'] ++ k) := rfl
    rw [hform]
    exact takeRun_append_stop _ _ _ _ hhc (by decide)
  have hpre2 : postLit.isPrefixOf (postLit ++ k) = true := by
    rw [List.isPrefixOf_iff_prefix]
    exact List.prefix_append _ _
  have hdrop2 : (postLit ++ k).drop postLit.length = k := List.drop_left _ _
  have hrun2 : takeRun isRkeyChar k = (k, []) := takeRun_all _ _ hkc
  have hhe : h.isEmpty = false := by
    cases h with
    | nil => exact absurd rfl hh
    | cons a t => rfl
  have hke : k.isEmpty = false := by
    cases k with
    | nil => exact absurd rfl hk
    | cons a t => rfl
  simp [tryMatchAt, hpre, hdrop, hrun, hpre2, hdrop2, hrun2, hhe, hke]

/-- Scanning may skip any prefix that contains no occurrence of `profile/`:
the literal has no nontrivial self-overlap, so no match attempt can start
inside such a prefix. -/
lemma regexCaptures_append_no_profile (rest : List Char) :
    ∀ (p : List Char), (∀ a b : List Char, p ≠ a ++ (profileLit ++ b)) →
      regexCaptures (p ++ (profileLit ++ rest)) =
        regexCaptures (profileLit ++ rest) := by
  intro p
  induction p with
  | nil => intro _; rfl
  | cons c p ih =>
    intro hp
    have hnotpre : ¬ profileLit <+: c :: (p ++ (profileLit ++ rest)) := by
      intro hpre
      have hpre2 : profileLit <+: (c :: p) ++ (profileLit ++ rest) := by
        simpa using hpre
      rcases le_or_lt profileLit.length (c :: p).length with hlen | hlen
      · have hq : profileLit <+: (c :: p) :=
          List.prefix_of_prefix_length_le hpre2 (List.prefix_append _ _) hlen
        obtain ⟨b, hb2⟩ := hq
        exact hp [] b (by simpa using hb2.symm)
      · have hq : (c :: p) <+: profileLit :=
          List.prefix_of_prefix_length_le (List.prefix_append _ _) hpre2
            (le_of_lt hlen)
        have hql : (c :: p) = profileLit.take (c :: p).length :=
          List.prefix_iff_eq_take.mp hq
        have hbl : profileLit.isPrefixOf ((c :: p) ++ (profileLit ++ rest)) = true := by
          rw [List.isPrefixOf_iff_prefix]
          exact hpre2
        have h0 : 0 < (c :: p).length := by simp
        have h8 : (c :: p).length < 8 := by simpa [profileLit] using hlen
        generalize hn : (c :: p).length = n at hql h0 h8
        interval_cases n <;> (rw [hql] at hbl; exact Bool.noConfusion hbl)
    have hp2 : ∀ a b : List Char, p ≠ a ++ (profileLit ++ b) := fun a b hab =>
      hp (c :: a) b (by simp [hab])
    have htry : tryMatchAt (c :: (p ++ (profileLit ++ rest))) = none := by
      simp [tryMatchAt, hnotpre]
    calc regexCaptures ((c :: p) ++ (profileLit ++ rest))
        = regexCaptures (c :: (p ++ (profileLit ++ rest))) := by simp
      _ = regexCaptures (p ++ (profileLit ++ rest)) := by
          simp [regexCaptures, htry]
      _ = regexCaptures (profileLit ++ rest) := ih hp2

/-- The leftmost search over a canonical URL succeeds at the `profile/`
occurrence with exactly `(h, k)`. -/
lemma regexCaptures_canonical (h k : List Char)
    (hh : h ≠ []) (hhc : ∀ c ∈ h, isHandleChar c = true)
    (hk : k ≠ []) (hkc : ∀ c ∈ k, isRkeyChar c = true) :
    regexCaptures (profileLit ++ (h ++ (postLit ++ k))) = some (h, k) := by
  have ht := tryMatchAt_canonical h k hh hhc hk hkc
  simp only [profileLit, List.cons_append, List.nil_append] at ht ⊢
  simp [regexCaptures, ht]

/-- C8: for every URL of the form `<prefix>profile/<handle>/post/<recordKey>`
whose prefix contains no `profile/` occurrence, with the handle nonempty over
`[a-zA-Z0-9._-]` and the record key nonempty over `[A-Za-z0-9._:~-]`,
extraction yields exactly the handle and record-key substrings; and the
extraction result is injective in the two segments: URLs differing in the
`(handle, recordKey)` pair extract to different results. -/
theorem c8_extraction_exact_and_injective
    (p h k : List Char)
    (hp : ¬ profileLit <:+: p)
    (hh : h ≠ []) (hhc : ∀ c ∈ h, isHandleChar c = true)
    (hk : k ≠ []) (hkc : ∀ c ∈ k, isRkeyChar c = true) :
    regexCaptures (p ++ (profileLit ++ (h ++ (postLit ++ k)))) = some (h, k) ∧
    (∀ (p2 h2 k2 : List Char), ¬ profileLit <:+: p2 →
      h2 ≠ [] → (∀ c ∈ h2, isHandleChar c = true) →
      k2 ≠ [] → (∀ c ∈ k2, isRkeyChar c = true) →
      (h, k) ≠ (h2, k2) →
      regexCaptures (p ++ (profileLit ++ (h ++ (postLit ++ k)))) ≠
        regexCaptures (p2 ++ (profileLit ++ (h2 ++ (postLit ++ k2))))) := by
  have main : ∀ (q hq kq : List Char), ¬ profileLit <:+: q → hq ≠ [] →
      (∀ c ∈ hq, isHandleChar c = true) → kq ≠ [] →
      (∀ c ∈ kq, isRkeyChar c = true) →
      regexCaptures (q ++ (profileLit ++ (hq ++ (postLit ++ kq)))) =
        some (hq, kq) := by
    intro q hq kq hinf hh1 hc1 hk1 hkc1
    have hq2 : ∀ a b : List Char, q ≠ a ++ (profileLit ++ b) := by
      intro a b hab
      exact hinf ⟨a, b, by rw [hab]; simp⟩
    rw [regexCaptures_append_no_profile _ q hq2]
    exact regexCaptures_canonical hq kq hh1 hc1 hk1 hkc1
  refine ⟨main p h k hp hh hhc hk hkc, ?_⟩
  intro p2 h2 k2 hp2 hh2 hhc2 hk2 hkc2 hne
  rw [main p h k hp hh hhc hk hkc, main p2 h2 k2 hp2 hh2 hhc2 hk2 hkc2]
  simpa using hne

/-- C8 witness: the canonical sample URL. -/
theorem c8_extraction_exact_and_injective_witness :
    regexCaptures ("https://bsky.app/".data ++
        (profileLit ++ ("alice".data ++ (postLit ++ "3k1".data)))) =
      some ("alice".data, "3k1".data) ∧
    (∀ (p2 h2 k2 : List Char), ¬ profileLit <:+: p2 →
      h2 ≠ [] → (∀ c ∈ h2, isHandleChar c = true) →
      k2 ≠ [] → (∀ c ∈ k2, isRkeyChar c = true) →
      ("alice".data, "3k1".data) ≠ (h2, k2) →
      regexCaptures ("https://bsky.app/".data ++
          (profileLit ++ ("alice".data ++ (postLit ++ "3k1".data)))) ≠
        regexCaptures (p2 ++ (profileLit ++ (h2 ++ (postLit ++ k2))))) :=
  c8_extraction_exact_and_injective "https://bsky.app/".data "alice".data
    "3k1".data (by decide) (by decide) (by decide) (by decide) (by decide)

end BskyArchiver
